import Mathlib

/-
  Verification of the form-101 export/import ETL pipelines
  (export_f101_to_csv.py, import_f101_from_csv.py).

  The store (PostgreSQL) is modelled as an explicit state with a
  committed/pending pair per connection; every cursor.execute is a pending
  mutation, conn.commit() promotes pending to committed, conn.rollback()
  resets pending to committed.  pandas values are modelled abstractly:
  a value is either the SQL null (Python None), the pandas NaN missing
  marker, or a scalar carried as its string rendering.  Each pipeline run
  is a total function from a fault-injection environment and an initial
  store to an outcome, a final committed store, an event trace of its
  store interactions, and the CSV file it wrote (export path).
-/

namespace F101

/-- A cell value: SQL NULL / Python None, the pandas NaN missing marker,
or an ordinary scalar carried as its string rendering. -/
inductive Value where
  | null : Value
  | nan : Value
  | scalar : String → Value
  deriving DecidableEq, Repr

/-- pd.isna: true on None and NaN, false on any ordinary scalar. -/
def pdIsna : Value → Bool
  | Value.null => true
  | Value.nan => true
  | Value.scalar _ => false

/-- The strings pandas read_csv interprets as missing values
(empty field plus the default NA markers). -/
def naMarkers : List String :=
  ["", "NaN", "nan", "NULL", "null", "N/A", "n/a", "NA", "#N/A"]

/-- How df.to_csv renders one value: missing values become an empty field,
scalars are written as-is. -/
def toCsvCell : Value → String
  | Value.null => ""
  | Value.nan => ""
  | Value.scalar s => s

/-- How pd.read_csv interprets one field: NA markers become NaN,
anything else is a scalar. -/
def readCsvCell (s : String) : Value :=
  if s ∈ naMarkers then Value.nan else Value.scalar s

/-- The inline normalization of line 130 of import_f101_from_csv.py:
None if pd.isna(x) else x. -/
def normalizeValue (v : Value) : Value :=
  if pdIsna v then Value.null else v

/-- tuple(None if pd.isna(x) else x for x in row). -/
def normalizeRow (row : List Value) : List Value :=
  row.map normalizeValue

/-- Resolution of every empty/missing-value marker to the store's null;
the specification's description of what one export/import round trip does
to a single value. -/
def resolveEmpty : Value → Value
  | Value.null => Value.null
  | Value.nan => Value.null
  | Value.scalar s => if s ∈ naMarkers then Value.null else Value.scalar s

/-- A CSV file: a header row of column names and the data rows, as fields. -/
structure Csv where
  header : List String
  rows : List (List String)
  deriving DecidableEq, Repr

/-- A pandas DataFrame: ordered named columns and rows of values. -/
structure DataFrame where
  columns : List String
  rows : List (List Value)
  deriving DecidableEq, Repr

/-- pd.read_csv: first row is the column names, every field parsed with
the NA-marker rule. -/
def dfOfCsv (c : Csv) : DataFrame :=
  { columns := c.header, rows := c.rows.map (List.map readCsvCell) }

/-- df.to_csv(index=False): header row of column names, one line per row. -/
def csvOfDf (df : DataFrame) : Csv :=
  { header := df.columns, rows := df.rows.map (List.map toCsvCell) }

/-- The structural part of a table: column names plus the default
expressions and constraints that LIKE ... INCLUDING DEFAULTS INCLUDING
CONSTRAINTS copies. -/
structure TableSchema where
  columns : List String
  defaults : List String
  constraints : List String
  deriving DecidableEq, Repr

/-- A relational table: its structure and its rows. -/
structure Table where
  schema : TableSchema
  rows : List (List Value)
  deriving DecidableEq, Repr

/-- pd.read_sql("SELECT * FROM t"): the whole table in natural column
order; SQL NULLs surface as missing values, which pdIsna and toCsvCell
already treat uniformly. -/
def dfOfTable (t : Table) : DataFrame :=
  { columns := t.schema.columns, rows := t.rows }

/-- Run status in logs.etl_logs. -/
inductive Status where
  | started
  | completed
  | failed
  deriving DecidableEq, Repr

/-- One row of logs.etl_logs.  Timestamps are abstracted to the single
fact that the end_time column has been set. -/
structure RunRecord where
  log_id : Nat
  table_name : String
  status : Status
  records_processed : Nat
  error_message : Option String
  has_end_time : Bool
  deriving DecidableEq, Repr

/-- The record inserted by log_*_start. -/
def startedRecord (id : Nat) (tname : String) : RunRecord :=
  { log_id := id, table_name := tname, status := Status.started,
    records_processed := 0, error_message := none, has_end_time := false }

/-- A record after the log_*_end update. -/
def endedRecord (id : Nat) (tname : String) (st : Status) (n : Nat)
    (msg : Option String) : RunRecord :=
  { log_id := id, table_name := tname, status := st,
    records_processed := n, error_message := msg, has_end_time := true }

/-- UPDATE logs.etl_logs SET ... WHERE log_id = id. -/
def updateLedger (id : Nat) (st : Status) (n : Nat) (msg : Option String)
    (l : List RunRecord) : List RunRecord :=
  l.map (fun r =>
    if r.log_id = id then
      { r with status := st, records_processed := n,
               error_message := msg, has_end_time := true }
    else r)

/-- The database state: the reference table dm.dm_f101_round_f, the
target dm.dm_f101_round_f_v2 of the import (absent until provisioned), the
logs.etl_logs ledger, and the next log_id the store will assign. -/
structure Store where
  refTable : Option Table
  targetTable : Option Table
  ledger : List RunRecord
  nextLogId : Nat
  deriving DecidableEq, Repr

/-- Store invariant: every existing ledger id is below the next assigned id. -/
def freshIds (s : Store) : Prop :=
  ∀ r ∈ s.ledger, r.log_id < s.nextLogId

instance (s : Store) : Decidable (freshIds s) := by
  unfold freshIds; infer_instance

/-- INSERT INTO logs.etl_logs ... RETURNING log_id, as a store mutation. -/
def ledgerInsertStarted (tname : String) (s : Store) : Store :=
  { s with ledger := s.ledger ++ [startedRecord s.nextLogId tname],
           nextLogId := s.nextLogId + 1 }

/-- The ledger UPDATE, as a store mutation. -/
def ledgerUpdate (id : Nat) (st : Status) (n : Nat) (msg : Option String)
    (s : Store) : Store :=
  { s with ledger := updateLedger id st n msg s.ledger }

/-- The errors a run can raise.  Bare store-library exceptions are
represented by the failure kind of the step that raised them. -/
inductive Err where
  | connError
  | provisionError
  | ledgerWriteError
  | fileNotFound
  | parseError
  | truncateError
  | insertError
  | extractError
  | writeError
  deriving DecidableEq, Repr

/-- str(e): the stringified error recorded in error_message. -/
def errMsg : Err → String
  | Err.connError => "connection error"
  | Err.provisionError => "provision error"
  | Err.ledgerWriteError => "ledger write error"
  | Err.fileNotFound => "input file not found"
  | Err.parseError => "parse error"
  | Err.truncateError => "truncate error"
  | Err.insertError => "insert error"
  | Err.extractError => "extract error"
  | Err.writeError => "write error"

deriving instance DecidableEq for Except

/-- The observable interactions of one run, in order. -/
inductive Event where
  | connect
  | execCreateTable
  | execLedgerInsert (tname : String)
  | execLedgerUpdate (id : Nat) (st : Status) (n : Nat) (msg : Option String)
  | execTruncate
  | execInsertBatch (cols : List String) (rows : List (List Value))
  | commit
  | rollback
  | fileCheck (present : Bool)
  | readCsv
  | readTable
  | writeCsv
  | closeConn
  deriving DecidableEq, Repr

/-- Events that write to the store. -/
def Event.isStoreWrite : Event → Bool
  | Event.execCreateTable => true
  | Event.execLedgerInsert _ => true
  | Event.execLedgerUpdate _ _ _ _ => true
  | Event.execTruncate => true
  | Event.execInsertBatch _ _ => true
  | _ => false

/-- The os.path.exists check event. -/
def Event.isFileCheck : Event → Bool
  | Event.fileCheck _ => true
  | _ => false

/-- A bulk-insert batch execution. -/
def Event.isInsertBatch : Event → Bool
  | Event.execInsertBatch _ _ => true
  | _ => false

/-- A ledger UPDATE execution. -/
def Event.isLedgerUpdate : Event → Bool
  | Event.execLedgerUpdate _ _ _ _ => true
  | _ => false

/-- A ledger INSERT or UPDATE execution. -/
def Event.isLedgerExec : Event → Bool
  | Event.execLedgerInsert _ => true
  | Event.execLedgerUpdate _ _ _ _ => true
  | _ => false

/-- A psycopg2 connection with autocommit disabled: the committed store
and the uncommitted view of the open transaction. -/
structure DB where
  committed : Store
  pending : Store
  deriving DecidableEq, Repr

/-- cursor.execute of a mutation: applies to the open transaction only. -/
def dbExec (f : Store → Store) (db : DB) : DB :=
  { db with pending := f db.pending }

/-- conn.commit(). -/
def dbCommit (db : DB) : DB :=
  { db with committed := db.pending }

/-- conn.rollback(). -/
def dbRollback (db : DB) : DB :=
  { db with pending := db.committed }

/-- Fault-injection environment: which external interactions succeed,
and the content of the input CSV file (none = the file does not exist). -/
structure Env where
  connectOk : Bool
  provisionOk : Bool
  beginOk : Bool
  fileContent : Option Csv
  parseOk : Bool
  truncateOk : Bool
  insertOk : Bool
  readOk : Bool
  writeOk : Bool
  endOk : Bool
  deriving DecidableEq, Repr

/-- The result of one pipeline run: the propagated outcome, the final
committed store, the trace of interactions, and the CSV file the run
wrote (export path only). -/
structure RunResult where
  outcome : Except Err Unit
  store : Store
  events : List Event
  file : Option Csv
  deriving Repr

/-- log_import_start / log_export_start: INSERT a started record,
fetch the assigned id, commit; on failure rollback and re-raise. -/
def log_start (env : Env) (tname : String) (db : DB) :
    Except Err (Nat × DB) × List Event :=
  if env.beginOk then
    (Except.ok (db.pending.nextLogId, dbCommit (dbExec (ledgerInsertStarted tname) db)),
     [Event.execLedgerInsert tname, Event.commit])
  else
    (Except.error Err.ledgerWriteError, [Event.rollback])

/-- log_import_end / log_export_end: UPDATE the matching record, commit;
on failure rollback and re-raise.  The commit promotes every pending
change of the open transaction, not only the ledger update itself. -/
def log_end (env : Env) (id : Nat) (st : Status) (n : Nat)
    (msg : Option String) (db : DB) : Except Err DB × List Event :=
  if env.endOk then
    (Except.ok (dbCommit (dbExec (ledgerUpdate id st n msg) db)),
     [Event.execLedgerUpdate id st n msg, Event.commit])
  else
    (Except.error Err.ledgerWriteError, [Event.rollback])

/-- log_import_start of import_f101_from_csv.py (table name fixed in the body). -/
def log_import_start (env : Env) (db : DB) : Except Err (Nat × DB) × List Event :=
  log_start env "dm.dm_f101_round_f_v2" db

/-- log_export_start of export_f101_to_csv.py. -/
def log_export_start (env : Env) (db : DB) : Except Err (Nat × DB) × List Event :=
  log_start env "dm.dm_f101_round_f" db

/-- log_import_end of import_f101_from_csv.py. -/
def log_import_end (env : Env) (id : Nat) (st : Status) (n : Nat)
    (msg : Option String) (db : DB) : Except Err DB × List Event :=
  log_end env id st n msg db

/-- log_export_end of export_f101_to_csv.py. -/
def log_export_end (env : Env) (id : Nat) (st : Status) (n : Nat)
    (msg : Option String) (db : DB) : Except Err DB × List Event :=
  log_end env id st n msg db

/-- create_table_copy: CREATE TABLE IF NOT EXISTS dm.dm_f101_round_f_v2
(LIKE dm.dm_f101_round_f INCLUDING DEFAULTS INCLUDING CONSTRAINTS), then
commit; if the target already exists the statement is a committed no-op;
on store failure rollback and re-raise. -/
def create_table_copy (env : Env) (db : DB) : Except Err DB × List Event :=
  if env.provisionOk then
    match db.pending.targetTable with
    | some _ =>
        (Except.ok (dbCommit db), [Event.execCreateTable, Event.commit])
    | none =>
        match db.pending.refTable with
        | some ref =>
            (Except.ok (dbCommit (dbExec
                (fun s => { s with targetTable := some ({ schema := ref.schema, rows := [] }) }) db)),
             [Event.execCreateTable, Event.commit])
        | none => (Except.error Err.provisionError, [Event.rollback])
  else
    (Except.error Err.provisionError, [Event.rollback])

/-- Lines 125-127 of import_f101_from_csv.py: TRUNCATE then commit,
with no local exception handling. -/
def truncate_step (env : Env) (db : DB) : Except Err DB × List Event :=
  if env.truncateOk then
    match db.pending.targetTable with
    | some t =>
        (Except.ok (dbCommit (dbExec
            (fun s => { s with targetTable := some ({ t with rows := [] }) }) db)),
         [Event.execTruncate, Event.commit])
    | none => (Except.error Err.truncateError, [])
  else
    (Except.error Err.truncateError, [])

/-- Position of a column name in the explicit column list of the INSERT. -/
def idxOf? : List String → String → Option Nat
  | [], _ => none
  | c :: cs, x => if c = x then some 0 else (idxOf? cs x).map (· + 1)

/-- How the store lays out one inserted row: the INSERT names srcCols
explicitly, so each target column receives the value at that column's
position in srcCols, and columns the INSERT does not name receive null. -/
def alignRow (srcCols tgtCols : List String) (row : List Value) : List Value :=
  tgtCols.map (fun c =>
    match idxOf? srcCols c with
    | some i => row.getD i Value.null
    | none => Value.null)

/-- Executing one INSERT batch against the open transaction. -/
def insertAligned (cols : List String) (rows : List (List Value)) (s : Store) : Store :=
  match s.targetTable with
  | some t =>
      { s with
        targetTable := some ({ t with rows := t.rows ++ rows.map (alignRow cols t.schema.columns) }) }
  | none => s

/-- Splitting a list into consecutive chunks, fuel-recursive so the
kernel can evaluate it. -/
def chunkPagesAux (fuel n : Nat) (xs : List α) : List (List α) :=
  match fuel, xs with
  | _, [] => []
  | 0, xs => [xs]
  | fuel + 1, xs =>
      if n = 0 then [xs]
      else xs.take n :: chunkPagesAux fuel n (xs.drop n)

/-- execute_batch page partitioning: consecutive chunks of size n. -/
def chunkPages (n : Nat) (xs : List α) : List (List α) :=
  chunkPagesAux xs.length n xs

/-- psycopg2.extras.execute_batch: one execution round trip per page. -/
def applyBatches (cols : List String) (batches : List (List (List Value))) (db : DB) : DB :=
  batches.foldl (fun d b => dbExec (insertAligned cols b) d) db

/-- Lines 143-150 of import_f101_from_csv.py: execute_batch of the insert
statement over data_tuples with page_size=1000.  No commit here. -/
def batch_insert (env : Env) (cols : List String) (tuples : List (List Value)) (db : DB) :
    Except Err DB × List Event :=
  if env.insertOk then
    (Except.ok (applyBatches cols (chunkPages 1000 tuples) db),
     (chunkPages 1000 tuples).map (fun b => Event.execInsertBatch cols b))
  else
    (Except.error Err.insertError, [])

/-- Line 130 of import_f101_from_csv.py: the normalized data_tuples. -/
def dataTuples (df : DataFrame) : List (List Value) :=
  df.rows.map normalizeRow

/-- pd.read_sql("SELECT * FROM dm.dm_f101_round_f", conn). -/
def read_sql (env : Env) (db : DB) : Except Err DataFrame × List Event :=
  if env.readOk then
    match db.pending.refTable with
    | some t => (Except.ok (dfOfTable t), [Event.readTable])
    | none => (Except.error Err.extractError, [])
  else
    (Except.error Err.extractError, [])

/-- df.to_csv(output_file, index=False, encoding=utf-8). -/
def write_csv (env : Env) (df : DataFrame) : Except Err Csv × List Event :=
  if env.writeOk then
    (Except.ok (csvOfDf df), [Event.writeCsv])
  else
    (Except.error Err.writeError, [])

/-- The shared except-block of both pipelines once a log_id exists:
log the failure record via the end update and re-raise the original
error; if that secondary write itself raises, its error propagates
instead (the bare raise of the update replaces the original). -/
def handleFailure (env : Env) (id : Nat) (e : Err) (db : DB)
    (ev : List Event) (fl : Option Csv) : RunResult :=
  match log_end env id Status.failed 0 (some (errMsg e)) db with
  | (Except.ok db', ev') =>
      { outcome := Except.error e, store := db'.committed,
        events := ev ++ ev' ++ [Event.closeConn], file := fl }
  | (Except.error e2, ev') =>
      { outcome := Except.error e2, store := db.committed,
        events := ev ++ ev' ++ [Event.closeConn], file := fl }

/-- import_f101_from_csv (lines 104-166): connect, provision the copy
table, ledger begin, file-existence check, read_csv, truncate+commit,
normalize, batched insert (uncommitted), ledger end (whose commit also
commits the inserts); on any failure after begin, the except block
writes the failed record and re-raises; the connection is always closed. -/
def import_f101_from_csv (env : Env) (s0 : Store) : RunResult :=
  if env.connectOk then
    match create_table_copy env { committed := s0, pending := s0 } with
    | (Except.error e, ev) =>
        { outcome := Except.error e, store := s0,
          events := Event.connect :: ev ++ [Event.closeConn], file := none }
    | (Except.ok db1, ev1) =>
        match log_import_start env db1 with
        | (Except.error e, ev) =>
            { outcome := Except.error e, store := db1.committed,
              events := Event.connect :: ev1 ++ ev ++ [Event.closeConn], file := none }
        | (Except.ok (id, db2), ev2) =>
            match env.fileContent with
            | none =>
                handleFailure env id Err.fileNotFound db2
                  (Event.connect :: ev1 ++ ev2 ++ [Event.fileCheck false]) none
            | some csv =>
                if env.parseOk then
                  match truncate_step env db2 with
                  | (Except.error e, ev) =>
                      handleFailure env id e db2
                        (Event.connect :: ev1 ++ ev2 ++
                          [Event.fileCheck true, Event.readCsv] ++ ev) none
                  | (Except.ok db3, ev3) =>
                      match batch_insert env (dfOfCsv csv).columns
                          (dataTuples (dfOfCsv csv)) db3 with
                      | (Except.error e, ev) =>
                          handleFailure env id e db3
                            (Event.connect :: ev1 ++ ev2 ++
                              [Event.fileCheck true, Event.readCsv] ++ ev3 ++ ev) none
                      | (Except.ok db4, ev4) =>
                          match log_import_end env id Status.completed
                              (dataTuples (dfOfCsv csv)).length none db4 with
                          | (Except.ok db5, ev5) =>
                              { outcome := Except.ok (), store := db5.committed,
                                events := Event.connect :: ev1 ++ ev2 ++
                                  [Event.fileCheck true, Event.readCsv] ++
                                  ev3 ++ ev4 ++ ev5 ++ [Event.closeConn],
                                file := none }
                          | (Except.error e2, ev5) =>
                              handleFailure env id e2 (dbRollback db4)
                                (Event.connect :: ev1 ++ ev2 ++
                                  [Event.fileCheck true, Event.readCsv] ++
                                  ev3 ++ ev4 ++ ev5) none
                else
                  handleFailure env id Err.parseError db2
                    (Event.connect :: ev1 ++ ev2 ++ [Event.fileCheck true]) none
  else
    { outcome := Except.error Err.connError, store := s0, events := [], file := none }

/-- export_f101_to_csv (lines 88-119): connect, ledger begin, full read
of the source table, CSV write, ledger end; on any failure after begin,
the except block writes the failed record and re-raises; the connection
is always closed. -/
def export_f101_to_csv (env : Env) (s0 : Store) : RunResult :=
  if env.connectOk then
    match log_export_start env { committed := s0, pending := s0 } with
    | (Except.error e, ev) =>
        { outcome := Except.error e, store := s0,
          events := Event.connect :: ev ++ [Event.closeConn], file := none }
    | (Except.ok (id, db1), ev1) =>
        match read_sql env db1 with
        | (Except.error e, ev) =>
            handleFailure env id e db1 (Event.connect :: ev1 ++ ev) none
        | (Except.ok df, ev2) =>
            match write_csv env df with
            | (Except.error e, ev) =>
                handleFailure env id e db1
                  (Event.connect :: ev1 ++ ev2 ++ ev) none
            | (Except.ok csv, ev3) =>
                match log_export_end env id Status.completed df.rows.length none db1 with
                | (Except.ok db2, ev4) =>
                    { outcome := Except.ok (), store := db2.committed,
                      events := Event.connect :: ev1 ++ ev2 ++ ev3 ++ ev4 ++
                        [Event.closeConn],
                      file := some csv }
                | (Except.error e2, ev4) =>
                    handleFailure env id e2 db1
                      (Event.connect :: ev1 ++ ev2 ++ ev3 ++ ev4) (some csv)
  else
    { outcome := Except.error Err.connError, store := s0, events := [], file := none }

/-- The formalization of the ordering asserted by the missing-file claim:
no store write occurs before the first file-existence check. -/
def noStoreWriteBeforeFileCheck (evs : List Event) : Bool :=
  (evs.takeWhile (fun e => ! e.isFileCheck)).all (fun e => ! e.isStoreWrite)

/-- The formalization of "the bulk insert is committed in its own step,
separate from the ledger end-update": a commit occurs after the last
insert-batch execution and strictly before the ledger UPDATE execution. -/
def insertOwnCommit (evs : List Event) : Bool :=
  (((evs.reverse.takeWhile (fun e => ! e.isInsertBatch)).reverse).takeWhile
      (fun e => ! e.isLedgerUpdate)).any (fun e => e = Event.commit)

/-- A small concrete source table used by the witnesses. -/
def sampleSchema : TableSchema :=
  { columns := ["id", "val"], defaults := ["0", ""], constraints := ["pk_id"] }

/-- Concrete dm.dm_f101_round_f content for the witnesses. -/
def sampleSrc : Table :=
  { schema := sampleSchema,
    rows := [[Value.scalar "1", Value.null], [Value.scalar "2", Value.scalar "x"]] }

/-- Concrete initial store for the witnesses. -/
def sampleStore : Store :=
  { refTable := some sampleSrc, targetTable := none, ledger := [], nextLogId := 1 }

/-- The CSV the export of sampleSrc produces. -/
def sampleCsv : Csv :=
  { header := ["id", "val"], rows := [["1", ""], ["2", "x"]] }

/-- Environment in which every external interaction succeeds. -/
def envOk : Env :=
  { connectOk := true, provisionOk := true, beginOk := true,
    fileContent := some sampleCsv, parseOk := true, truncateOk := true,
    insertOk := true, readOk := true, writeOk := true, endOk := true }

theorem chunkPagesAux_flatten (fuel n : Nat) (xs : List α) :
    (chunkPagesAux fuel n xs).flatten = xs := by
  induction fuel generalizing xs with
  | zero => cases xs <;> simp [chunkPagesAux]
  | succ fuel ih =>
      cases xs with
      | nil => simp [chunkPagesAux]
      | cons x xs' =>
          by_cases hn : n = 0
          · simp [chunkPagesAux, hn]
          · simp only [chunkPagesAux, hn, if_false, List.flatten_cons, ih]
            exact List.take_append_drop n (x :: xs')

theorem chunkPages_flatten (n : Nat) (xs : List α) : (chunkPages n xs).flatten = xs :=
  chunkPagesAux_flatten xs.length n xs

theorem chunkPagesAux_mem (fuel n : Nat) (xs : List α) (hn : 0 < n)
    (hfuel : xs.length ≤ fuel) :
    ∀ b ∈ chunkPagesAux fuel n xs, b ≠ [] ∧ b.length ≤ n := by
  induction fuel generalizing xs with
  | zero =>
      have hx : xs = [] := List.length_eq_zero.mp (Nat.le_zero.mp hfuel)
      subst hx; simp [chunkPagesAux]
  | succ fuel ih =>
      cases xs with
      | nil => simp [chunkPagesAux]
      | cons x xs' =>
          have hn' : ¬ n = 0 := Nat.pos_iff_ne_zero.mp hn
          simp only [chunkPagesAux, hn', if_false, List.mem_cons]
          intro b hb
          rcases hb with hb | hb
          · subst hb
            refine ⟨?_, List.length_take_le n _⟩
            intro hnil
            have := congrArg List.length hnil
            simp [List.length_take] at this
            omega
          · refine ih ((x :: xs').drop n) ?_ b hb
            have h1 : ((x :: xs').drop n).length = (x :: xs').length - n :=
              List.length_drop n (x :: xs')
            have h2 : (x :: xs').length = xs'.length + 1 := rfl
            simp only [List.length_cons] at hfuel
            omega

theorem chunkPagesAux_ne_nil (fuel n : Nat) (xs : List α) (hxs : xs ≠ []) :
    chunkPagesAux fuel n xs ≠ [] := by
  cases fuel with
  | zero => cases xs with
      | nil => exact absurd rfl hxs
      | cons x xs' => simp [chunkPagesAux]
  | succ fuel =>
      cases xs with
      | nil => exact absurd rfl hxs
      | cons x xs' =>
          by_cases hn : n = 0 <;> simp [chunkPagesAux, hn]

theorem chunkPagesAux_dropLast (fuel n : Nat) (xs : List α) (hn : 0 < n)
    (hfuel : xs.length ≤ fuel) :
    ∀ b ∈ (chunkPagesAux fuel n xs).dropLast, b.length = n := by
  induction fuel generalizing xs with
  | zero =>
      have hx : xs = [] := List.length_eq_zero.mp (Nat.le_zero.mp hfuel)
      subst hx; simp [chunkPagesAux]
  | succ fuel ih =>
      cases xs with
      | nil => simp [chunkPagesAux]
      | cons x xs' =>
          have hn' : ¬ n = 0 := Nat.pos_iff_ne_zero.mp hn
          simp only [chunkPagesAux, hn', if_false]
          by_cases hrest : (x :: xs').drop n = []
          · simp [hrest, chunkPagesAux]
          · have hne := chunkPagesAux_ne_nil fuel n ((x :: xs').drop n) hrest
            rw [List.dropLast_cons_of_ne_nil hne]
            intro b hb
            rcases List.mem_cons.mp hb with hb | hb
            · subst hb
              have hlt : n < (x :: xs').length := by
                by_contra hge
                exact hrest (List.drop_eq_nil_of_le (Nat.le_of_not_lt hge))
              simp only [List.length_cons] at hlt
              simp [List.length_take]
              omega
            · refine ih ((x :: xs').drop n) ?_ b hb
              have h1 : ((x :: xs').drop n).length = (x :: xs').length - n :=
                List.length_drop n (x :: xs')
              have h2 : (x :: xs').length = xs'.length + 1 := rfl
              simp only [List.length_cons] at hfuel
              omega

theorem chunkPages_mem (n : Nat) (xs : List α) (hn : 0 < n) :
    ∀ b ∈ chunkPages n xs, b ≠ [] ∧ b.length ≤ n :=
  chunkPagesAux_mem xs.length n xs hn (Nat.le_refl _)

theorem chunkPages_dropLast (n : Nat) (xs : List α) (hn : 0 < n) :
    ∀ b ∈ (chunkPages n xs).dropLast, b.length = n :=
  chunkPagesAux_dropLast xs.length n xs hn (Nat.le_refl _)

theorem insertAligned_nil (cols : List String) (s : Store) :
    insertAligned cols [] s = s := by
  rcases s with ⟨ref, tgt, led, nid⟩
  cases tgt with
  | none => rfl
  | some t => simp [insertAligned]

theorem insertAligned_append (cols : List String) (a b : List (List Value)) (s : Store) :
    insertAligned cols (a ++ b) s = insertAligned cols b (insertAligned cols a s) := by
  rcases s with ⟨ref, tgt, led, nid⟩
  cases tgt with
  | none => rfl
  | some t => simp [insertAligned, List.append_assoc]

theorem applyBatches_committed (cols : List String) (bs : List (List (List Value))) (db : DB) :
    (applyBatches cols bs db).committed = db.committed := by
  induction bs generalizing db with
  | nil => rfl
  | cons b bs ih =>
      have h1 : applyBatches cols (b :: bs) db
          = applyBatches cols bs { db with pending := insertAligned cols b db.pending } := rfl
      rw [h1]
      exact ih { db with pending := insertAligned cols b db.pending }

theorem applyBatches_pending (cols : List String) (bs : List (List (List Value))) (db : DB) :
    (applyBatches cols bs db).pending = insertAligned cols bs.flatten db.pending := by
  induction bs generalizing db with
  | nil => simp [applyBatches, insertAligned_nil]
  | cons b bs ih =>
      have h1 : applyBatches cols (b :: bs) db
          = applyBatches cols bs { db with pending := insertAligned cols b db.pending } := rfl
      rw [h1, ih, List.flatten_cons]
      exact (insertAligned_append cols b bs.flatten db.pending).symm

theorem idxOf?_get (cols : List String) (hnd : cols.Nodup) (i : Nat) (hi : i < cols.length) :
    idxOf? cols (cols.get ⟨i, hi⟩) = some i := by
  induction cols generalizing i with
  | nil => simp at hi
  | cons c cs ih =>
      rcases List.nodup_cons.mp hnd with ⟨hc, hcs⟩
      cases i with
      | zero => simp [idxOf?]
      | succ j =>
          have hj : j < cs.length := Nat.lt_of_succ_lt_succ hi
          have hget : (c :: cs).get ⟨j + 1, hi⟩ = cs.get ⟨j, hj⟩ := rfl
          have hne : ¬ c = cs.get ⟨j, hj⟩ := by
            intro h
            exact hc (h ▸ List.get_mem cs j hj)
          have hrec := ih hcs j hj
          rw [hget]
          simp only [List.get_eq_getElem] at hne hrec ⊢
          simp [idxOf?, hne, hrec]

theorem alignRow_self (cols : List String) (row : List Value)
    (hnd : cols.Nodup) (hlen : row.length = cols.length) :
    alignRow cols cols row = row := by
  apply List.ext_get
  · simp [alignRow, hlen]
  · intro i h1 h2
    simp only [alignRow, List.get_eq_getElem, List.getElem_map]
    have hic : i < cols.length := by simpa [alignRow] using h1
    have := idxOf?_get cols hnd i hic
    simp only [List.get_eq_getElem] at this
    rw [this]
    exact List.getD_eq_getElem row Value.null h2

theorem roundtrip_cell (v : Value) :
    normalizeValue (readCsvCell (toCsvCell v)) = resolveEmpty v := by
  cases v with
  | null => decide
  | nan => decide
  | scalar s =>
      by_cases h : s ∈ naMarkers <;>
        simp [toCsvCell, readCsvCell, resolveEmpty, normalizeValue, pdIsna, h]

theorem updateLedger_fresh (l : List RunRecord) (id : Nat) (tname : String)
    (st : Status) (n : Nat) (msg : Option String)
    (hfresh : ∀ r ∈ l, r.log_id < id) :
    updateLedger id st n msg (l ++ [startedRecord id tname]) =
      l ++ [endedRecord id tname st n msg] := by
  unfold updateLedger
  rw [List.map_append]
  congr 1
  · conv_rhs => rw [← List.map_id l]
    apply List.map_congr_left
    intro r hr
    simp [Nat.ne_of_lt (hfresh r hr)]
  · simp [startedRecord, endedRecord]

theorem insertAligned_refTable (cols : List String) (rows : List (List Value)) (s : Store) :
    (insertAligned cols rows s).refTable = s.refTable := by
  rcases s with ⟨ref, tgt, led, nid⟩; cases tgt <;> rfl

theorem insertAligned_ledger (cols : List String) (rows : List (List Value)) (s : Store) :
    (insertAligned cols rows s).ledger = s.ledger := by
  rcases s with ⟨ref, tgt, led, nid⟩; cases tgt <;> rfl

theorem insertAligned_nextLogId (cols : List String) (rows : List (List Value)) (s : Store) :
    (insertAligned cols rows s).nextLogId = s.nextLogId := by
  rcases s with ⟨ref, tgt, led, nid⟩; cases tgt <;> rfl

/-- The structure the target table has once create_table_copy has run:
its own if it already exists, the reference table's otherwise. -/
def provisionedSchema (s : Store) : Option TableSchema :=
  match s.targetTable with
  | some t => some t.schema
  | none => Option.map Table.schema s.refTable

/-- Full characterization of a fault-free import run: outcome, final
committed store, event trace and absence of a written file. -/
theorem import_success_run (env : Env) (s0 : Store) (csv : Csv) (sch : TableSchema)
    (hc : env.connectOk = true) (hp : env.provisionOk = true) (hb : env.beginOk = true)
    (hf : env.fileContent = some csv) (hpa : env.parseOk = true)
    (ht : env.truncateOk = true) (hi : env.insertOk = true) (he : env.endOk = true)
    (hsch : provisionedSchema s0 = some sch) :
    (import_f101_from_csv env s0).outcome = Except.ok () ∧
    (import_f101_from_csv env s0).store.refTable = s0.refTable ∧
    (import_f101_from_csv env s0).store.targetTable =
      some { schema := sch,
             rows := (dataTuples (dfOfCsv csv)).map (alignRow csv.header sch.columns) } ∧
    (import_f101_from_csv env s0).store.ledger =
      updateLedger s0.nextLogId Status.completed (dataTuples (dfOfCsv csv)).length none
        (s0.ledger ++ [startedRecord s0.nextLogId "dm.dm_f101_round_f_v2"]) ∧
    (import_f101_from_csv env s0).store.nextLogId = s0.nextLogId + 1 ∧
    (import_f101_from_csv env s0).events =
      Event.connect :: Event.execCreateTable :: Event.commit ::
      Event.execLedgerInsert "dm.dm_f101_round_f_v2" :: Event.commit ::
      Event.fileCheck true :: Event.readCsv :: Event.execTruncate :: Event.commit ::
      ((chunkPages 1000 (dataTuples (dfOfCsv csv))).map
          (fun b => Event.execInsertBatch csv.header b) ++
        [Event.execLedgerUpdate s0.nextLogId Status.completed
           (dataTuples (dfOfCsv csv)).length none,
         Event.commit, Event.closeConn]) ∧
    (import_f101_from_csv env s0).file = none := by
  rcases s0 with ⟨ref, tgt, led, nid⟩
  cases tgt with
  | some t =>
      have hsch' : sch = t.schema := by
        simp [provisionedSchema] at hsch
        exact hsch.symm
      subst hsch'
      simp [import_f101_from_csv, create_table_copy, log_import_start, log_start,
        log_import_end, log_end, truncate_step, batch_insert, dataTuples, dfOfCsv,
        dbExec, dbCommit, dbRollback, hc, hp, hb, hf, hpa, ht, hi, he,
        ledgerInsertStarted, ledgerUpdate, insertAligned,
        applyBatches_pending, applyBatches_committed, chunkPages_flatten]
  | none =>
      cases href : ref with
      | none => simp [provisionedSchema, href] at hsch
      | some refT =>
          have hsch' : sch = refT.schema := by
            simp [provisionedSchema, href] at hsch
            exact hsch.symm
          subst hsch'
          simp [import_f101_from_csv, create_table_copy, log_import_start, log_start,
            log_import_end, log_end, truncate_step, batch_insert, dataTuples, dfOfCsv,
            dbExec, dbCommit, dbRollback, hc, hp, hb, hf, hpa, ht, hi, he,
            ledgerInsertStarted, ledgerUpdate, insertAligned,
            applyBatches_pending, applyBatches_committed, chunkPages_flatten]

/-- Full characterization of a fault-free export run: outcome, final
committed store, event trace and the CSV file written. -/
theorem export_success_run (env : Env) (s0 : Store) (ref : Table)
    (hc : env.connectOk = true) (hb : env.beginOk = true)
    (hr : env.readOk = true) (hw : env.writeOk = true) (he : env.endOk = true)
    (href : s0.refTable = some ref) :
    (export_f101_to_csv env s0).outcome = Except.ok () ∧
    (export_f101_to_csv env s0).store.refTable = s0.refTable ∧
    (export_f101_to_csv env s0).store.targetTable = s0.targetTable ∧
    (export_f101_to_csv env s0).store.ledger =
      updateLedger s0.nextLogId Status.completed ref.rows.length none
        (s0.ledger ++ [startedRecord s0.nextLogId "dm.dm_f101_round_f"]) ∧
    (export_f101_to_csv env s0).store.nextLogId = s0.nextLogId + 1 ∧
    (export_f101_to_csv env s0).events =
      [Event.connect, Event.execLedgerInsert "dm.dm_f101_round_f", Event.commit,
       Event.readTable, Event.writeCsv,
       Event.execLedgerUpdate s0.nextLogId Status.completed ref.rows.length none,
       Event.commit, Event.closeConn] ∧
    (export_f101_to_csv env s0).file = some (csvOfDf (dfOfTable ref)) := by
  rcases s0 with ⟨refT, tgt, led, nid⟩
  cases href
  simp [export_f101_to_csv, log_export_start, log_start, log_export_end, log_end,
    read_sql, write_csv, dfOfTable, dbExec, dbCommit, dbRollback, hc, hb, hr, hw, he,
    ledgerInsertStarted, ledgerUpdate]

/-- Ledger accounting of every import failure that occurs after the begin
insert returned a run id, when the terminal ledger write itself succeeds:
the started record is updated to failed with zero records and the
stringified original error, and that error is the propagated outcome. -/
theorem import_fail_ledger (env : Env) (s0 : Store) (sch : TableSchema)
    (hc : env.connectOk = true) (hp : env.provisionOk = true) (hb : env.beginOk = true)
    (he : env.endOk = true) (hsch : provisionedSchema s0 = some sch) :
    ∀ e : Err, (import_f101_from_csv env s0).outcome = Except.error e →
      (import_f101_from_csv env s0).store.ledger =
        updateLedger s0.nextLogId Status.failed 0 (some (errMsg e))
          (s0.ledger ++ [startedRecord s0.nextLogId "dm.dm_f101_round_f_v2"]) := by
  intro e hout
  rcases s0 with ⟨ref, tgt, led, nid⟩
  have hshape : (∃ t, tgt = some t) ∨ (tgt = none ∧ ∃ rT, ref = some rT) := by
    cases tgt with
    | some t => exact Or.inl ⟨t, rfl⟩
    | none =>
        cases ref with
        | none => simp [provisionedSchema] at hsch
        | some rT => exact Or.inr ⟨rfl, rT, rfl⟩
  cases hfc : env.fileContent with
  | none =>
      rcases hshape with ⟨t, rfl⟩ | ⟨rfl, rT, rfl⟩ <;>
        · simp [import_f101_from_csv, create_table_copy, log_import_start, log_start,
            log_import_end, log_end, truncate_step, batch_insert, handleFailure,
            dataTuples, dfOfCsv, dbExec, dbCommit, dbRollback, ledgerInsertStarted,
            ledgerUpdate, hc, hp, hb, he, hfc] at hout ⊢
          subst hout
          simp
  | some csv =>
      cases hpa : env.parseOk with
      | false =>
          rcases hshape with ⟨t, rfl⟩ | ⟨rfl, rT, rfl⟩ <;>
            · simp [import_f101_from_csv, create_table_copy, log_import_start, log_start,
                log_import_end, log_end, truncate_step, batch_insert, handleFailure,
                dataTuples, dfOfCsv, dbExec, dbCommit, dbRollback, ledgerInsertStarted,
                ledgerUpdate, hc, hp, hb, he, hfc, hpa] at hout ⊢
              subst hout
              simp
      | true =>
          cases htr : env.truncateOk with
          | false =>
              rcases hshape with ⟨t, rfl⟩ | ⟨rfl, rT, rfl⟩ <;>
                · simp [import_f101_from_csv, create_table_copy, log_import_start, log_start,
                    log_import_end, log_end, truncate_step, batch_insert, handleFailure,
                    dataTuples, dfOfCsv, dbExec, dbCommit, dbRollback, ledgerInsertStarted,
                    ledgerUpdate, hc, hp, hb, he, hfc, hpa, htr] at hout ⊢
                  subst hout
                  simp
          | true =>
              cases hins : env.insertOk with
              | false =>
                  rcases hshape with ⟨t, rfl⟩ | ⟨rfl, rT, rfl⟩ <;>
                    · simp [import_f101_from_csv, create_table_copy, log_import_start,
                        log_start, log_import_end, log_end, truncate_step, batch_insert,
                        handleFailure, dataTuples, dfOfCsv, dbExec, dbCommit, dbRollback,
                        ledgerInsertStarted, ledgerUpdate, hc, hp, hb, he, hfc, hpa, htr,
                        hins] at hout ⊢
                      subst hout
                      simp
              | true =>
                  rcases hshape with ⟨t, rfl⟩ | ⟨rfl, rT, rfl⟩ <;>
                    · simp [import_f101_from_csv, create_table_copy, log_import_start,
                        log_start, log_import_end, log_end, truncate_step, batch_insert,
                        handleFailure, dataTuples, dfOfCsv, dbExec, dbCommit, dbRollback,
                        ledgerInsertStarted, ledgerUpdate, insertAligned,
                        applyBatches_pending, applyBatches_committed, chunkPages_flatten,
                        hc, hp, hb, he, hfc, hpa, htr, hins] at hout ⊢

/-- When the terminal ledger update cannot be committed, the import run
propagates the ledger-write error itself and the run record is left in
started status. -/
theorem import_lwfail_ledger (env : Env) (s0 : Store) (sch : TableSchema)
    (hc : env.connectOk = true) (hp : env.provisionOk = true) (hb : env.beginOk = true)
    (he : env.endOk = false) (hsch : provisionedSchema s0 = some sch) :
    (import_f101_from_csv env s0).outcome = Except.error Err.ledgerWriteError ∧
    (import_f101_from_csv env s0).store.ledger =
      s0.ledger ++ [startedRecord s0.nextLogId "dm.dm_f101_round_f_v2"] := by
  rcases s0 with ⟨ref, tgt, led, nid⟩
  have hshape : (∃ t, tgt = some t) ∨ (tgt = none ∧ ∃ rT, ref = some rT) := by
    cases tgt with
    | some t => exact Or.inl ⟨t, rfl⟩
    | none =>
        cases ref with
        | none => simp [provisionedSchema] at hsch
        | some rT => exact Or.inr ⟨rfl, rT, rfl⟩
  cases hfc : env.fileContent with
  | none =>
      rcases hshape with ⟨t, rfl⟩ | ⟨rfl, rT, rfl⟩ <;>
        simp [import_f101_from_csv, create_table_copy, log_import_start, log_start,
          log_import_end, log_end, truncate_step, batch_insert, handleFailure,
          dataTuples, dfOfCsv, dbExec, dbCommit, dbRollback, ledgerInsertStarted,
          ledgerUpdate, hc, hp, hb, he, hfc]
  | some csv =>
      cases hpa : env.parseOk with
      | false =>
          rcases hshape with ⟨t, rfl⟩ | ⟨rfl, rT, rfl⟩ <;>
            simp [import_f101_from_csv, create_table_copy, log_import_start, log_start,
              log_import_end, log_end, truncate_step, batch_insert, handleFailure,
              dataTuples, dfOfCsv, dbExec, dbCommit, dbRollback, ledgerInsertStarted,
              ledgerUpdate, hc, hp, hb, he, hfc, hpa]
      | true =>
          cases htr : env.truncateOk with
          | false =>
              rcases hshape with ⟨t, rfl⟩ | ⟨rfl, rT, rfl⟩ <;>
                simp [import_f101_from_csv, create_table_copy, log_import_start, log_start,
                  log_import_end, log_end, truncate_step, batch_insert, handleFailure,
                  dataTuples, dfOfCsv, dbExec, dbCommit, dbRollback, ledgerInsertStarted,
                  ledgerUpdate, hc, hp, hb, he, hfc, hpa, htr]
          | true =>
              cases hins : env.insertOk with
              | false =>
                  rcases hshape with ⟨t, rfl⟩ | ⟨rfl, rT, rfl⟩ <;>
                    simp [import_f101_from_csv, create_table_copy, log_import_start,
                      log_start, log_import_end, log_end, truncate_step, batch_insert,
                      handleFailure, dataTuples, dfOfCsv, dbExec, dbCommit, dbRollback,
                      ledgerInsertStarted, ledgerUpdate, hc, hp, hb, he, hfc, hpa, htr,
                      hins]
              | true =>
                  rcases hshape with ⟨t, rfl⟩ | ⟨rfl, rT, rfl⟩ <;>
                    simp [import_f101_from_csv, create_table_copy, log_import_start,
                      log_start, log_import_end, log_end, truncate_step, batch_insert,
                      handleFailure, dataTuples, dfOfCsv, dbExec, dbCommit, dbRollback,
                      ledgerInsertStarted, ledgerUpdate, insertAligned,
                      applyBatches_pending, applyBatches_committed, chunkPages_flatten,
                      hc, hp, hb, he, hfc, hpa, htr, hins]

/-- Ledger accounting of every export failure after the begin insert,
when the terminal ledger write succeeds. -/
theorem export_fail_ledger (env : Env) (s0 : Store)
    (hc : env.connectOk = true) (hb : env.beginOk = true) (he : env.endOk = true) :
    ∀ e : Err, (export_f101_to_csv env s0).outcome = Except.error e →
      (export_f101_to_csv env s0).store.ledger =
        updateLedger s0.nextLogId Status.failed 0 (some (errMsg e))
          (s0.ledger ++ [startedRecord s0.nextLogId "dm.dm_f101_round_f"]) := by
  intro e hout
  rcases s0 with ⟨ref, tgt, led, nid⟩
  cases hr : env.readOk with
  | false =>
      simp [export_f101_to_csv, log_export_start, log_start, log_export_end, log_end,
        read_sql, write_csv, handleFailure, dfOfTable, csvOfDf, dbExec, dbCommit,
        dbRollback, ledgerInsertStarted, ledgerUpdate, hc, hb, he, hr] at hout ⊢
      subst hout
      simp
  | true =>
      cases ref with
      | none =>
          simp [export_f101_to_csv, log_export_start, log_start, log_export_end, log_end,
            read_sql, write_csv, handleFailure, dfOfTable, csvOfDf, dbExec, dbCommit,
            dbRollback, ledgerInsertStarted, ledgerUpdate, hc, hb, he, hr] at hout ⊢
          subst hout
          simp
      | some rT =>
          cases hw : env.writeOk with
          | false =>
              simp [export_f101_to_csv, log_export_start, log_start, log_export_end,
                log_end, read_sql, write_csv, handleFailure, dfOfTable, csvOfDf, dbExec,
                dbCommit, dbRollback, ledgerInsertStarted, ledgerUpdate,
                hc, hb, he, hr, hw] at hout ⊢
              subst hout
              simp
          | true =>
              simp [export_f101_to_csv, log_export_start, log_start, log_export_end,
                log_end, read_sql, write_csv, handleFailure, dfOfTable, csvOfDf, dbExec,
                dbCommit, dbRollback, ledgerInsertStarted, ledgerUpdate,
                hc, hb, he, hr, hw] at hout ⊢

/-- When the terminal ledger update cannot be committed, the export run
propagates the ledger-write error itself and the run record is left in
started status. -/
theorem export_lwfail_ledger (env : Env) (s0 : Store)
    (hc : env.connectOk = true) (hb : env.beginOk = true) (he : env.endOk = false) :
    (export_f101_to_csv env s0).outcome = Except.error Err.ledgerWriteError ∧
    (export_f101_to_csv env s0).store.ledger =
      s0.ledger ++ [startedRecord s0.nextLogId "dm.dm_f101_round_f"] := by
  rcases s0 with ⟨ref, tgt, led, nid⟩
  cases hr : env.readOk with
  | false =>
      simp [export_f101_to_csv, log_export_start, log_start, log_export_end, log_end,
        read_sql, write_csv, handleFailure, dfOfTable, csvOfDf, dbExec, dbCommit,
        dbRollback, ledgerInsertStarted, ledgerUpdate, hc, hb, he, hr]
  | true =>
      cases ref with
      | none =>
          simp [export_f101_to_csv, log_export_start, log_start, log_export_end, log_end,
            read_sql, write_csv, handleFailure, dfOfTable, csvOfDf, dbExec, dbCommit,
            dbRollback, ledgerInsertStarted, ledgerUpdate, hc, hb, he, hr]
      | some rT =>
          cases hw : env.writeOk with
          | false =>
              simp [export_f101_to_csv, log_export_start, log_start, log_export_end,
                log_end, read_sql, write_csv, handleFailure, dfOfTable, csvOfDf, dbExec,
                dbCommit, dbRollback, ledgerInsertStarted, ledgerUpdate,
                hc, hb, he, hr, hw]
          | true =>
              simp [export_f101_to_csv, log_export_start, log_start, log_export_end,
                log_end, read_sql, write_csv, handleFailure, dfOfTable, csvOfDf, dbExec,
                dbCommit, dbRollback, ledgerInsertStarted, ledgerUpdate,
                hc, hb, he, hr, hw]

theorem normalize_read_write_row (r : List Value) :
    normalizeRow ((r.map toCsvCell).map readCsvCell) = r.map resolveEmpty := by
  simp only [normalizeRow, List.map_map]
  apply List.map_congr_left
  intro v _
  exact roundtrip_cell v

/-- C1: for every source table state, running the export pipeline (full
read, CSV serialization) and then the import pipeline on that unmodified
CSV into a freshly provisioned target yields a target table whose row
multiset, with columns aligned by name, equals the source table's row
multiset, with every empty/missing-value marker resolved to the store's
null. -/
theorem claim_C1_roundtrip (envE envI : Env) (s0 : Store) (src : Table)
    (hcE : envE.connectOk = true) (hbE : envE.beginOk = true)
    (hrE : envE.readOk = true) (hwE : envE.writeOk = true) (heE : envE.endOk = true)
    (hcI : envI.connectOk = true) (hpI : envI.provisionOk = true)
    (hbI : envI.beginOk = true) (hpaI : envI.parseOk = true)
    (htI : envI.truncateOk = true) (hiI : envI.insertOk = true) (heI : envI.endOk = true)
    (href : s0.refTable = some src) (htgt : s0.targetTable = none)
    (hnd : src.schema.columns.Nodup)
    (harr : ∀ r ∈ src.rows, r.length = src.schema.columns.length)
    (hfile : envI.fileContent = (export_f101_to_csv envE s0).file) :
    ∃ tgt : Table,
      (import_f101_from_csv envI (export_f101_to_csv envE s0).store).store.targetTable
        = some tgt ∧
      tgt.schema = src.schema ∧
      (tgt.rows : Multiset (List Value)) =
        ((src.rows.map (fun r => r.map resolveEmpty)) : Multiset (List Value)) := by
  obtain ⟨hoE, hrefE, htgtE, hledE, hnidE, hevE, hfE⟩ :=
    export_success_run envE s0 src hcE hbE hrE hwE heE href
  have hfile' : envI.fileContent = some (csvOfDf (dfOfTable src)) := by
    rw [hfile, hfE]
  have hsch : provisionedSchema (export_f101_to_csv envE s0).store = some src.schema := by
    rw [provisionedSchema, htgtE, htgt]
    rw [hrefE, href]
    rfl
  obtain ⟨hoI, hrefI, htgtI, hledI, hnidI, hevI, hfI⟩ :=
    import_success_run envI (export_f101_to_csv envE s0).store
      (csvOfDf (dfOfTable src)) src.schema hcI hpI hbI hfile' hpaI htI hiI heI hsch
  have h1 : dataTuples (dfOfCsv (csvOfDf (dfOfTable src)))
      = src.rows.map (fun r => r.map resolveEmpty) := by
    simp only [dataTuples, dfOfCsv, csvOfDf, dfOfTable, List.map_map]
    apply List.map_congr_left
    intro r _
    simpa [Function.comp] using normalize_read_write_row r
  have hrows : (dataTuples (dfOfCsv (csvOfDf (dfOfTable src)))).map
      (alignRow (csvOfDf (dfOfTable src)).header src.schema.columns)
      = src.rows.map (fun r => r.map resolveEmpty) := by
    have hhdr : (csvOfDf (dfOfTable src)).header = src.schema.columns := rfl
    rw [hhdr, h1]
    conv_rhs => rw [← List.map_id (src.rows.map (fun r => r.map resolveEmpty))]
    apply List.map_congr_left
    intro x hx
    rcases List.mem_map.mp hx with ⟨r0, hr0, rfl⟩
    have hlen : (r0.map resolveEmpty).length = src.schema.columns.length := by
      simp [harr r0 hr0]
    exact alignRow_self src.schema.columns (r0.map resolveEmpty) hnd hlen
  refine ⟨_, htgtI, rfl, ?_⟩
  exact congrArg (fun l : List (List Value) => (l : Multiset (List Value))) hrows

/-- Import environment whose input file is exactly what the sample export produced. -/
def envImp : Env :=
  { envOk with fileContent := (export_f101_to_csv envOk sampleStore).file }

/-- C1 witness: the round-trip theorem applied to the concrete two-row
sample table, all hypotheses discharged by evaluation. -/
theorem claim_C1_witness :
    ∃ tgt : Table,
      (import_f101_from_csv envImp (export_f101_to_csv envOk sampleStore).store).store.targetTable
        = some tgt ∧
      tgt.schema = sampleSrc.schema ∧
      (tgt.rows : Multiset (List Value)) =
        ((sampleSrc.rows.map (fun r => r.map resolveEmpty)) : Multiset (List Value)) :=
  claim_C1_roundtrip envOk envImp sampleStore sampleSrc rfl rfl rfl rfl rfl rfl rfl
    rfl rfl rfl rfl rfl rfl rfl (by decide) (by decide) rfl

/-- C6: provisioning is idempotent — when the target table already exists
the step is a committed no-op that raises no error and changes nothing,
and from a state without the target, two successive calls produce exactly
one table that structurally copies the reference table's schema (columns,
defaults, constraints), the second call being an error-free no-op. -/
theorem claim_C6_idempotent_provisioning (env : Env) (db : DB) (ref : Table)
    (hp : env.provisionOk = true) (hdb : db.pending = db.committed)
    (href : db.pending.refTable = some ref) :
    (∀ t : Table, db.pending.targetTable = some t →
      create_table_copy env db = (Except.ok db, [Event.execCreateTable, Event.commit])) ∧
    (db.pending.targetTable = none →
      ∃ db1 : DB,
        create_table_copy env db = (Except.ok db1, [Event.execCreateTable, Event.commit]) ∧
        db1.pending = db1.committed ∧
        db1.pending.targetTable = some { schema := ref.schema, rows := [] } ∧
        create_table_copy env db1 = (Except.ok db1, [Event.execCreateTable, Event.commit])) := by
  rcases db with ⟨c, p⟩
  simp only at hdb href
  subst hdb
  constructor
  · intro t ht
    have ht' : p.targetTable = some t := ht
    simp [create_table_copy, hp, ht', dbCommit]
  · intro ht
    have ht' : p.targetTable = none := ht
    refine ⟨⟨{ p with targetTable := some { schema := ref.schema, rows := [] } },
            { p with targetTable := some { schema := ref.schema, rows := [] } }⟩,
      ?_, rfl, rfl, ?_⟩
    · simp [create_table_copy, hp, ht', href, dbCommit, dbExec]
    · simp [create_table_copy, hp, dbCommit]

/-- C6 witness: provisioning applied twice from the sample store, which
has no target table yet. -/
theorem claim_C6_witness :
    ∃ db1 : DB,
      create_table_copy envOk ⟨sampleStore, sampleStore⟩ =
        (Except.ok db1, [Event.execCreateTable, Event.commit]) ∧
      db1.pending = db1.committed ∧
      db1.pending.targetTable = some { schema := sampleSrc.schema, rows := [] } ∧
      create_table_copy envOk db1 = (Except.ok db1, [Event.execCreateTable, Event.commit]) :=
  (claim_C6_idempotent_provisioning envOk ⟨sampleStore, sampleStore⟩ sampleSrc
    rfl rfl rfl).2 rfl

/-- C7: null normalization is total and the only transformation — the
data_tuples the import inserts are exactly the buffer's rows with every
missing value (pd.isna) mapped to null and every other value passed
through unchanged, preserving each row's arity and order. -/
theorem claim_C7_null_normalization :
    (∀ df : DataFrame, dataTuples df = df.rows.map normalizeRow) ∧
    (∀ row : List Value, (normalizeRow row).length = row.length) ∧
    (∀ row : List Value, ∀ i : Nat,
      (normalizeRow row)[i]? =
        (row[i]?).map (fun v => if pdIsna v then Value.null else v)) := by
  refine ⟨fun df => rfl, fun row => by simp [normalizeRow], fun row i => ?_⟩
  simp only [normalizeRow, List.getElem?_map]
  cases row[i]? <;> simp [normalizeValue]

/-- Import environment whose input file does not exist. -/
def envMiss : Env := { envOk with fileContent := none }

/-- C2 counterexample: with the input file absent and every store
interaction succeeding, the run does raise the missing-input error, but
store writes (provisioning and the ledger begin insert) precede the
file-existence check, refuting the claimed ordering. -/
theorem claim_C2_counterexample :
    (import_f101_from_csv envMiss sampleStore).outcome = Except.error Err.fileNotFound ∧
    noStoreWriteBeforeFileCheck (import_f101_from_csv envMiss sampleStore).events = false := by
  decide

/-- C2 amended: when the input CSV path does not exist the import fails
with the missing-input error, but only after the provisioning step and
the ledger begin insert have been committed — the existence check follows
those store writes, and the handler then marks the run record failed. -/
theorem claim_C2_amended (env : Env) (s0 : Store) (sch : TableSchema)
    (hc : env.connectOk = true) (hp : env.provisionOk = true) (hb : env.beginOk = true)
    (he : env.endOk = true) (hfc : env.fileContent = none)
    (hsch : provisionedSchema s0 = some sch) (hfresh : freshIds s0) :
    (import_f101_from_csv env s0).outcome = Except.error Err.fileNotFound ∧
    (import_f101_from_csv env s0).events =
      [Event.connect, Event.execCreateTable, Event.commit,
       Event.execLedgerInsert "dm.dm_f101_round_f_v2", Event.commit,
       Event.fileCheck false,
       Event.execLedgerUpdate s0.nextLogId Status.failed 0 (some (errMsg Err.fileNotFound)),
       Event.commit, Event.closeConn] ∧
    noStoreWriteBeforeFileCheck (import_f101_from_csv env s0).events = false ∧
    (import_f101_from_csv env s0).store.ledger =
      s0.ledger ++ [endedRecord s0.nextLogId "dm.dm_f101_round_f_v2" Status.failed 0
        (some (errMsg Err.fileNotFound))] := by
  rcases s0 with ⟨ref, tgt, led, nid⟩
  have hfresh' : ∀ r ∈ led, r.log_id < nid := hfresh
  have hshape : (∃ t, tgt = some t) ∨ (tgt = none ∧ ∃ rT, ref = some rT) := by
    cases tgt with
    | some t => exact Or.inl ⟨t, rfl⟩
    | none =>
        cases ref with
        | none => simp [provisionedSchema] at hsch
        | some rT => exact Or.inr ⟨rfl, rT, rfl⟩
  rcases hshape with ⟨t, rfl⟩ | ⟨rfl, rT, rfl⟩ <;>
    simp [import_f101_from_csv, create_table_copy, log_import_start, log_start,
      log_import_end, log_end, handleFailure, dbExec, dbCommit, dbRollback,
      ledgerInsertStarted, ledgerUpdate, hc, hp, hb, he, hfc,
      noStoreWriteBeforeFileCheck, Event.isFileCheck, Event.isStoreWrite,
      updateLedger_fresh led nid "dm.dm_f101_round_f_v2" Status.failed 0
        (some (errMsg Err.fileNotFound)) hfresh']

/-- C2 amended witness at the sample store. -/
theorem claim_C2_amended_witness :
    (import_f101_from_csv envMiss sampleStore).outcome = Except.error Err.fileNotFound ∧
    (import_f101_from_csv envMiss sampleStore).events =
      [Event.connect, Event.execCreateTable, Event.commit,
       Event.execLedgerInsert "dm.dm_f101_round_f_v2", Event.commit,
       Event.fileCheck false,
       Event.execLedgerUpdate sampleStore.nextLogId Status.failed 0
         (some (errMsg Err.fileNotFound)),
       Event.commit, Event.closeConn] ∧
    noStoreWriteBeforeFileCheck (import_f101_from_csv envMiss sampleStore).events = false ∧
    (import_f101_from_csv envMiss sampleStore).store.ledger =
      sampleStore.ledger ++ [endedRecord sampleStore.nextLogId "dm.dm_f101_round_f_v2"
        Status.failed 0 (some (errMsg Err.fileNotFound))] :=
  claim_C2_amended envMiss sampleStore sampleSchema rfl rfl rfl rfl rfl
    (by decide) (by decide)

/-- C3: every step-local failure after the begin step returned a run id
updates that run record to failed with records_processed 0 and the
stringified original error, and re-raises that original error — for both
pipelines, whenever the terminal ledger write itself can be committed. -/
theorem claim_C3_failed_run_accounting (env : Env) (s0 : Store) (sch : TableSchema)
    (hc : env.connectOk = true) (hp : env.provisionOk = true) (hb : env.beginOk = true)
    (he : env.endOk = true) (hsch : provisionedSchema s0 = some sch)
    (hfresh : freshIds s0) :
    (∀ e : Err, (import_f101_from_csv env s0).outcome = Except.error e →
      (import_f101_from_csv env s0).store.ledger =
        s0.ledger ++ [endedRecord s0.nextLogId "dm.dm_f101_round_f_v2" Status.failed 0
          (some (errMsg e))]) ∧
    (∀ e : Err, (export_f101_to_csv env s0).outcome = Except.error e →
      (export_f101_to_csv env s0).store.ledger =
        s0.ledger ++ [endedRecord s0.nextLogId "dm.dm_f101_round_f" Status.failed 0
          (some (errMsg e))]) := by
  constructor
  · intro e hout
    rw [import_fail_ledger env s0 sch hc hp hb he hsch e hout]
    exact updateLedger_fresh s0.ledger s0.nextLogId _ _ _ _ hfresh
  · intro e hout
    rw [export_fail_ledger env s0 hc hb he e hout]
    exact updateLedger_fresh s0.ledger s0.nextLogId _ _ _ _ hfresh

/-- Environment in which the import input file is missing and the export
source read fails, with the ledger itself healthy. -/
def envStepFail : Env := { envOk with fileContent := none, readOk := false }

/-- C3 witness: a missing input file (import) and a failing source read
(export) both yield the failed run record with zero records and the
original error's message. -/
theorem claim_C3_witness :
    (import_f101_from_csv envStepFail sampleStore).store.ledger =
      sampleStore.ledger ++ [endedRecord sampleStore.nextLogId "dm.dm_f101_round_f_v2"
        Status.failed 0 (some (errMsg Err.fileNotFound))] ∧
    (export_f101_to_csv envStepFail sampleStore).store.ledger =
      sampleStore.ledger ++ [endedRecord sampleStore.nextLogId "dm.dm_f101_round_f"
        Status.failed 0 (some (errMsg Err.extractError))] := by
  have h := claim_C3_failed_run_accounting envStepFail sampleStore sampleSchema
    rfl rfl rfl rfl (by decide) (by decide)
  exact ⟨h.1 Err.fileNotFound (by decide), h.2 Err.extractError (by decide)⟩

/-- Import environment with a missing input file and a ledger whose end
update cannot be committed. -/
def envMissEndFail : Env := { envOk with fileContent := none, endOk := false }

/-- C4 counterexample: the same failing run (missing input file)
propagates the original error when the terminal ledger write succeeds,
but propagates the ledger-write error instead when that write fails —
the secondary failure replaces the original error at the process
boundary, refuting the claim. -/
theorem claim_C4_counterexample :
    (import_f101_from_csv envMiss sampleStore).outcome = Except.error Err.fileNotFound ∧
    (import_f101_from_csv envMissEndFail sampleStore).outcome =
      Except.error Err.ledgerWriteError ∧
    Err.ledgerWriteError ≠ Err.fileNotFound := by decide

/-- C4 amended: when the terminal ledger update cannot be committed, the
error that reaches the process boundary is the ledger-write error, which
replaces the original pipeline error; the run record is left in started
status (the failed update was rolled back).  This holds for both
pipelines. -/
theorem claim_C4_amended (env : Env) (s0 : Store) (sch : TableSchema)
    (hc : env.connectOk = true) (hp : env.provisionOk = true) (hb : env.beginOk = true)
    (he : env.endOk = false) (hsch : provisionedSchema s0 = some sch) :
    ((import_f101_from_csv env s0).outcome = Except.error Err.ledgerWriteError ∧
      (import_f101_from_csv env s0).store.ledger =
        s0.ledger ++ [startedRecord s0.nextLogId "dm.dm_f101_round_f_v2"]) ∧
    ((export_f101_to_csv env s0).outcome = Except.error Err.ledgerWriteError ∧
      (export_f101_to_csv env s0).store.ledger =
        s0.ledger ++ [startedRecord s0.nextLogId "dm.dm_f101_round_f"]) :=
  ⟨import_lwfail_ledger env s0 sch hc hp hb he hsch,
   export_lwfail_ledger env s0 hc hb he⟩

/-- C4 amended witness at the sample store. -/
theorem claim_C4_amended_witness :
    ((import_f101_from_csv envMissEndFail sampleStore).outcome =
        Except.error Err.ledgerWriteError ∧
      (import_f101_from_csv envMissEndFail sampleStore).store.ledger =
        sampleStore.ledger ++ [startedRecord sampleStore.nextLogId "dm.dm_f101_round_f_v2"]) ∧
    ((export_f101_to_csv envMissEndFail sampleStore).outcome =
        Except.error Err.ledgerWriteError ∧
      (export_f101_to_csv envMissEndFail sampleStore).store.ledger =
        sampleStore.ledger ++ [startedRecord sampleStore.nextLogId "dm.dm_f101_round_f"]) :=
  claim_C4_amended envMissEndFail sampleStore sampleSchema rfl rfl rfl rfl (by decide)

theorem filter_isInsertBatch_map (cols : List String) (bs : List (List (List Value))) :
    (bs.map (fun b => Event.execInsertBatch cols b)).filter Event.isInsertBatch
      = bs.map (fun b => Event.execInsertBatch cols b) := by
  induction bs with
  | nil => rfl
  | cons b bs ih => simp [Event.isInsertBatch, ih]

theorem filter_isLedgerExec_map (cols : List String) (bs : List (List (List Value))) :
    (bs.map (fun b => Event.execInsertBatch cols b)).filter Event.isLedgerExec = [] := by
  induction bs with
  | nil => rfl
  | cons b bs ih => simp [Event.isLedgerExec, ih]

/-- C5 counterexample: in a fully successful import run there are insert
batches and a ledger end-update, but no commit between the last insert
batch and that update — the bulk insert is not committed as its own
separate transaction. -/
theorem claim_C5_counterexample :
    (import_f101_from_csv envOk sampleStore).events.any Event.isInsertBatch = true ∧
    (import_f101_from_csv envOk sampleStore).events.any Event.isLedgerUpdate = true ∧
    insertOwnCommit (import_f101_from_csv envOk sampleStore).events = false := by
  decide

/-- C5 amended: each ledger write and the schema and truncate steps are
each executed and committed as their own transaction (an exec immediately
followed by its commit in the trace), but the import bulk insert is not:
no commit follows the insert batches until the one issued by the ledger
end-update, so the insert is committed together with that update. -/
theorem claim_C5_amended (env : Env) (s0 : Store) (csv : Csv) (sch : TableSchema)
    (ref : Table)
    (hc : env.connectOk = true) (hp : env.provisionOk = true) (hb : env.beginOk = true)
    (hf : env.fileContent = some csv) (hpa : env.parseOk = true)
    (ht : env.truncateOk = true) (hi : env.insertOk = true) (he : env.endOk = true)
    (hr : env.readOk = true) (hw : env.writeOk = true)
    (hsch : provisionedSchema s0 = some sch) (href : s0.refTable = some ref) :
    (import_f101_from_csv env s0).events =
      Event.connect :: Event.execCreateTable :: Event.commit ::
      Event.execLedgerInsert "dm.dm_f101_round_f_v2" :: Event.commit ::
      Event.fileCheck true :: Event.readCsv :: Event.execTruncate :: Event.commit ::
      ((chunkPages 1000 (dataTuples (dfOfCsv csv))).map
          (fun b => Event.execInsertBatch csv.header b) ++
        [Event.execLedgerUpdate s0.nextLogId Status.completed
           (dataTuples (dfOfCsv csv)).length none,
         Event.commit, Event.closeConn]) ∧
    (export_f101_to_csv env s0).events =
      [Event.connect, Event.execLedgerInsert "dm.dm_f101_round_f", Event.commit,
       Event.readTable, Event.writeCsv,
       Event.execLedgerUpdate s0.nextLogId Status.completed ref.rows.length none,
       Event.commit, Event.closeConn] :=
  ⟨(import_success_run env s0 csv sch hc hp hb hf hpa ht hi he hsch).2.2.2.2.2.1,
   (export_success_run env s0 ref hc hb hr hw he href).2.2.2.2.2.1⟩

/-- C5 amended witness at the sample store. -/
theorem claim_C5_amended_witness :
    (import_f101_from_csv envOk sampleStore).events =
      Event.connect :: Event.execCreateTable :: Event.commit ::
      Event.execLedgerInsert "dm.dm_f101_round_f_v2" :: Event.commit ::
      Event.fileCheck true :: Event.readCsv :: Event.execTruncate :: Event.commit ::
      ((chunkPages 1000 (dataTuples (dfOfCsv sampleCsv))).map
          (fun b => Event.execInsertBatch sampleCsv.header b) ++
        [Event.execLedgerUpdate sampleStore.nextLogId Status.completed
           (dataTuples (dfOfCsv sampleCsv)).length none,
         Event.commit, Event.closeConn]) ∧
    (export_f101_to_csv envOk sampleStore).events =
      [Event.connect, Event.execLedgerInsert "dm.dm_f101_round_f", Event.commit,
       Event.readTable, Event.writeCsv,
       Event.execLedgerUpdate sampleStore.nextLogId Status.completed
         sampleSrc.rows.length none,
       Event.commit, Event.closeConn] :=
  claim_C5_amended envOk sampleStore sampleCsv sampleSchema sampleSrc
    rfl rfl rfl rfl rfl rfl rfl rfl rfl rfl (by decide) rfl

/-- C8: for every successfully parsed buffer the load step bulk-inserts
all of its rows using the buffer's column order as the explicit target
column list, in fixed-size batches of 1000 rows (every batch nonempty and
at most 1000 rows, every batch but the last exactly 1000, the batches
concatenating to the whole buffer), and records a count equal to the
number of rows in the buffer. -/
theorem claim_C8_batched_insert (env : Env) (s0 : Store) (csv : Csv) (sch : TableSchema)
    (hc : env.connectOk = true) (hp : env.provisionOk = true) (hb : env.beginOk = true)
    (hf : env.fileContent = some csv) (hpa : env.parseOk = true)
    (ht : env.truncateOk = true) (hi : env.insertOk = true) (he : env.endOk = true)
    (hsch : provisionedSchema s0 = some sch) (hfresh : freshIds s0) :
    ((import_f101_from_csv env s0).events.filter Event.isInsertBatch =
      (chunkPages 1000 (dataTuples (dfOfCsv csv))).map
        (fun b => Event.execInsertBatch (dfOfCsv csv).columns b)) ∧
    (chunkPages 1000 (dataTuples (dfOfCsv csv))).flatten = dataTuples (dfOfCsv csv) ∧
    (∀ b ∈ chunkPages 1000 (dataTuples (dfOfCsv csv)), b ≠ [] ∧ b.length ≤ 1000) ∧
    (∀ b ∈ (chunkPages 1000 (dataTuples (dfOfCsv csv))).dropLast, b.length = 1000) ∧
    (dataTuples (dfOfCsv csv)).length = (dfOfCsv csv).rows.length ∧
    (import_f101_from_csv env s0).store.ledger =
      s0.ledger ++ [endedRecord s0.nextLogId "dm.dm_f101_round_f_v2" Status.completed
        (dataTuples (dfOfCsv csv)).length none] := by
  obtain ⟨ho, hrf, htg, hled, hnid, hev, hfl⟩ :=
    import_success_run env s0 csv sch hc hp hb hf hpa ht hi he hsch
  refine ⟨?_, chunkPages_flatten 1000 _,
    chunkPages_mem 1000 _ (by norm_num), chunkPages_dropLast 1000 _ (by norm_num),
    by simp [dataTuples], ?_⟩
  · rw [hev]
    simp [List.filter_append, Event.isInsertBatch, filter_isInsertBatch_map, dfOfCsv]
  · rw [hled]
    exact updateLedger_fresh s0.ledger s0.nextLogId _ _ _ _ hfresh

/-- C8 witness at the sample store and its two-row CSV. -/
theorem claim_C8_witness :
    ((import_f101_from_csv envOk sampleStore).events.filter Event.isInsertBatch =
      (chunkPages 1000 (dataTuples (dfOfCsv sampleCsv))).map
        (fun b => Event.execInsertBatch (dfOfCsv sampleCsv).columns b)) ∧
    (chunkPages 1000 (dataTuples (dfOfCsv sampleCsv))).flatten
      = dataTuples (dfOfCsv sampleCsv) ∧
    (∀ b ∈ chunkPages 1000 (dataTuples (dfOfCsv sampleCsv)), b ≠ [] ∧ b.length ≤ 1000) ∧
    (∀ b ∈ (chunkPages 1000 (dataTuples (dfOfCsv sampleCsv))).dropLast,
      b.length = 1000) ∧
    (dataTuples (dfOfCsv sampleCsv)).length = (dfOfCsv sampleCsv).rows.length ∧
    (import_f101_from_csv envOk sampleStore).store.ledger =
      sampleStore.ledger ++ [endedRecord sampleStore.nextLogId "dm.dm_f101_round_f_v2"
        Status.completed (dataTuples (dfOfCsv sampleCsv)).length none] :=
  claim_C8_batched_insert envOk sampleStore sampleCsv sampleSchema
    rfl rfl rfl rfl rfl rfl rfl rfl (by decide) (by decide)

/-- C9: a run of either pipeline that completes normally creates exactly
one run record, whose status progresses started then completed (the two
ledger executions, in that order, are the only ledger interactions of the
run), and whose final records_processed equals the number of rows read
(export) or inserted (import). -/
theorem claim_C9_ledger_completeness (env : Env) (s0 : Store) (csv : Csv)
    (sch : TableSchema) (ref : Table)
    (hc : env.connectOk = true) (hp : env.provisionOk = true) (hb : env.beginOk = true)
    (hf : env.fileContent = some csv) (hpa : env.parseOk = true)
    (ht : env.truncateOk = true) (hi : env.insertOk = true) (he : env.endOk = true)
    (hr : env.readOk = true) (hw : env.writeOk = true)
    (hsch : provisionedSchema s0 = some sch) (href : s0.refTable = some ref)
    (hfresh : freshIds s0) :
    ((import_f101_from_csv env s0).outcome = Except.ok () ∧
     (import_f101_from_csv env s0).store.ledger =
       s0.ledger ++ [endedRecord s0.nextLogId "dm.dm_f101_round_f_v2" Status.completed
         (dataTuples (dfOfCsv csv)).length none] ∧
     (import_f101_from_csv env s0).events.filter Event.isLedgerExec =
       [Event.execLedgerInsert "dm.dm_f101_round_f_v2",
        Event.execLedgerUpdate s0.nextLogId Status.completed
          (dataTuples (dfOfCsv csv)).length none]) ∧
    ((export_f101_to_csv env s0).outcome = Except.ok () ∧
     (export_f101_to_csv env s0).store.ledger =
       s0.ledger ++ [endedRecord s0.nextLogId "dm.dm_f101_round_f" Status.completed
         ref.rows.length none] ∧
     (export_f101_to_csv env s0).events.filter Event.isLedgerExec =
       [Event.execLedgerInsert "dm.dm_f101_round_f",
        Event.execLedgerUpdate s0.nextLogId Status.completed ref.rows.length none]) := by
  obtain ⟨hoI, hrfI, htgI, hledI, hnidI, hevI, hflI⟩ :=
    import_success_run env s0 csv sch hc hp hb hf hpa ht hi he hsch
  obtain ⟨hoE, hrfE, htgE, hledE, hnidE, hevE, hflE⟩ :=
    export_success_run env s0 ref hc hb hr hw he href
  refine ⟨⟨hoI, ?_, ?_⟩, hoE, ?_, ?_⟩
  · rw [hledI]
    exact updateLedger_fresh s0.ledger s0.nextLogId _ _ _ _ hfresh
  · rw [hevI]
    simp [List.filter_append, Event.isLedgerExec, filter_isLedgerExec_map]
  · rw [hledE]
    exact updateLedger_fresh s0.ledger s0.nextLogId _ _ _ _ hfresh
  · rw [hevE]
    simp [Event.isLedgerExec]

/-- C9 witness at the sample store. -/
theorem claim_C9_witness :
    ((import_f101_from_csv envOk sampleStore).outcome = Except.ok () ∧
     (import_f101_from_csv envOk sampleStore).store.ledger =
       sampleStore.ledger ++ [endedRecord sampleStore.nextLogId "dm.dm_f101_round_f_v2"
         Status.completed (dataTuples (dfOfCsv sampleCsv)).length none] ∧
     (import_f101_from_csv envOk sampleStore).events.filter Event.isLedgerExec =
       [Event.execLedgerInsert "dm.dm_f101_round_f_v2",
        Event.execLedgerUpdate sampleStore.nextLogId Status.completed
          (dataTuples (dfOfCsv sampleCsv)).length none]) ∧
    ((export_f101_to_csv envOk sampleStore).outcome = Except.ok () ∧
     (export_f101_to_csv envOk sampleStore).store.ledger =
       sampleStore.ledger ++ [endedRecord sampleStore.nextLogId "dm.dm_f101_round_f"
         Status.completed sampleSrc.rows.length none] ∧
     (export_f101_to_csv envOk sampleStore).events.filter Event.isLedgerExec =
       [Event.execLedgerInsert "dm.dm_f101_round_f",
        Event.execLedgerUpdate sampleStore.nextLogId Status.completed
          sampleSrc.rows.length none]) :=
  claim_C9_ledger_completeness envOk sampleStore sampleCsv sampleSchema sampleSrc
    rfl rfl rfl rfl rfl rfl rfl rfl rfl rfl (by decide) rfl (by decide)

/-- C10: if a pipeline fails before the begin step has returned a run id
(connection failure, provisioning failure on the import path, or a
failing begin insert), no failed-status ledger update is ever attempted
and the committed ledger is left exactly as it was — no record of the
run exists. -/
theorem claim_C10_no_ledger_before_begin (env : Env) (s0 : Store) :
    ((env.connectOk = false ∨ env.provisionOk = false ∨ env.beginOk = false) →
      (import_f101_from_csv env s0).store.ledger = s0.ledger ∧
      (import_f101_from_csv env s0).events.all
        (fun ev => ! ev.isLedgerUpdate) = true) ∧
    ((env.connectOk = false ∨ env.beginOk = false) →
      (export_f101_to_csv env s0).store.ledger = s0.ledger ∧
      (export_f101_to_csv env s0).events.all
        (fun ev => ! ev.isLedgerUpdate) = true) := by
  constructor
  · intro h
    cases hcon : env.connectOk with
    | false => simp [import_f101_from_csv, hcon]
    | true =>
        cases hp : env.provisionOk with
        | false =>
            simp [import_f101_from_csv, create_table_copy, hcon, hp,
              Event.isLedgerUpdate]
        | true =>
            cases hb : env.beginOk with
            | false =>
                rcases s0 with ⟨ref, tgt, led, nid⟩
                cases tgt with
                | some t =>
                    simp [import_f101_from_csv, create_table_copy, log_import_start,
                      log_start, dbCommit, dbExec, hcon, hp, hb, Event.isLedgerUpdate]
                | none =>
                    cases ref with
                    | some rT =>
                        simp [import_f101_from_csv, create_table_copy, log_import_start,
                          log_start, dbCommit, dbExec, hcon, hp, hb,
                          Event.isLedgerUpdate]
                    | none =>
                        simp [import_f101_from_csv, create_table_copy, log_import_start,
                          log_start, dbCommit, dbExec, hcon, hp, hb,
                          Event.isLedgerUpdate]
            | true =>
                rcases h with h | h | h <;> simp_all
  · intro h
    cases hcon : env.connectOk with
    | false => simp [export_f101_to_csv, hcon]
    | true =>
        cases hb : env.beginOk with
        | false =>
            simp [export_f101_to_csv, log_export_start, log_start, hcon, hb,
              Event.isLedgerUpdate]
        | true =>
            rcases h with h | h <;> simp_all

/-- Environment in which the store connection cannot be established. -/
def envNoConn : Env := { envOk with connectOk := false }

/-- C10 witness: with the connection failing, neither pipeline leaves any
ledger record or attempts any ledger update. -/
theorem claim_C10_witness :
    ((import_f101_from_csv envNoConn sampleStore).store.ledger = sampleStore.ledger ∧
      (import_f101_from_csv envNoConn sampleStore).events.all
        (fun ev => ! ev.isLedgerUpdate) = true) ∧
    ((export_f101_to_csv envNoConn sampleStore).store.ledger = sampleStore.ledger ∧
      (export_f101_to_csv envNoConn sampleStore).events.all
        (fun ev => ! ev.isLedgerUpdate) = true) :=
  ⟨(claim_C10_no_ledger_before_begin envNoConn sampleStore).1 (Or.inl rfl),
   (claim_C10_no_ledger_before_begin envNoConn sampleStore).2 (Or.inl rfl)⟩

end F101
